import Mathlib

/-!
Shallow embedding of the Overwatch service handle/runner core
(src/overwatch/src/services/handle.rs) and of the auxiliary modules it
uses (relay, settings, state), the latter modelled from the spec because
their sources are not part of the repository snapshot.

Rust interior mutability is rendered as explicit state passing: a method
taking `&mut self` (or mutating through a cell) returns the updated value.
Freshness of runtime-allocated objects (relay channels, settings cells,
state channels, abort registrations) is tracked by threading an explicit
allocation counter: every allocation consumes the current counter value as
its identity and bumps the counter, so an object is "created during" a
call exactly when its identity lies between the counter at entry and the
counter at exit.
-/

namespace Overwatch

/-- Service identifier type: `pub type ServiceId = &'static str` in the source. -/
abbrev ServiceId := String

/-- Modelled from the spec: the Scheduling Context, a shared handle to the
externally-owned runtime (`OverwatchHandle` / `tokio::runtime::Handle`;
module `overwatch/handle.rs` is not under src/). Cloning shares the same
runtime, so the handle is identified by a runtime id. -/
structure OverwatchHandle where
  runtimeId : Nat
deriving DecidableEq, Repr

/-- Modelled from the spec: cloning an `OverwatchHandle` shares the runtime. -/
def OverwatchHandle.clone (h : OverwatchHandle) : OverwatchHandle := h

/-- Modelled from the spec: the runtime accessor returns the shared runtime. -/
def OverwatchHandle.runtime (h : OverwatchHandle) : Nat := h.runtimeId

/-- Modelled from the spec: consumer side of the Relay Channel
(`open(capacity) -> (Consumer, Producer)`; module services/relay is not
under src/). The channel an endpoint belongs to is its `relayId`. -/
structure InboundRelay (Msg : Type) where
  relayId : Nat
  capacity : Nat
deriving DecidableEq, Repr

/-- Modelled from the spec: clonable producer side of the Relay Channel. -/
structure OutboundRelay (Msg : Type) where
  relayId : Nat
  capacity : Nat
deriving DecidableEq, Repr

/-- Modelled from the spec: `relay(capacity)` opens a fresh bounded channel;
both endpoints share the freshly allocated channel identity. -/
def relay (Msg : Type) (capacity : Nat) (freshId : Nat) :
    InboundRelay Msg × OutboundRelay Msg :=
  (⟨freshId, capacity⟩, ⟨freshId, capacity⟩)

/-- Modelled from the spec: cloning a producer yields another sender on the
same channel. -/
def OutboundRelay.clone {Msg : Type} (r : OutboundRelay Msg) : OutboundRelay Msg := r

/-- Modelled from the spec: writer side of the Settings Broadcast, a
single-writer last-write-wins cell holding exactly one current value
(module services/settings is not under src/). `cellId` is the identity of
the broadcast cell, allocated when the cell is opened. -/
structure SettingsUpdater (Settings : Type) where
  cellId : Nat
  current : Settings
deriving DecidableEq, Repr

/-- Modelled from the spec: a reader of the Settings Broadcast; it is bound
to the cell it was subscribed to and can be cloned freely. -/
structure SettingsNotifier (Settings : Type) where
  cellId : Nat
deriving DecidableEq, Repr

/-- Modelled from the spec: opening the Settings Broadcast seeded with an
initial value allocates a fresh cell. -/
def SettingsUpdater.new {Settings : Type} (v : Settings) (freshId : Nat) :
    SettingsUpdater Settings :=
  ⟨freshId, v⟩

/-- Modelled from the spec: publishing atomically replaces the visible value
of the same cell; it never queues history. -/
def SettingsUpdater.update {Settings : Type} (u : SettingsUpdater Settings)
    (v : Settings) : SettingsUpdater Settings :=
  { u with current := v }

/-- Modelled from the spec: subscribing yields a reader bound to this cell. -/
def SettingsUpdater.notifier {Settings : Type} (u : SettingsUpdater Settings) :
    SettingsNotifier Settings :=
  ⟨u.cellId⟩

/-- Modelled from the spec: a reader's `get_updated_settings` is
non-suspending and returns the most recently published value of the cell it
is bound to; the cell's current state is passed explicitly (shared state).
Meaningful when the reader is bound to `cell`, i.e. their ids agree. -/
def SettingsNotifier.get_updated_settings {Settings : Type}
    (_n : SettingsNotifier Settings) (cell : SettingsUpdater Settings) : Settings :=
  cell.current

/-- Modelled from the spec: the State Persistence Pipeline
(`open(initial_state, operator) -> (Pipeline, Pusher)`; module
services/state is not under src/). The pipeline holds the state it was
seeded with and the operator instance it drains snapshots into; `chanId`
identifies the freshly allocated state channel pairing it to its pusher. -/
structure StateHandle (State Operator : Type) where
  initial : State
  operator : Operator
  chanId : Nat
deriving DecidableEq, Repr

/-- Modelled from the spec: the pusher side of a State Persistence Pipeline,
bound to the same freshly allocated state channel as its pipeline. -/
structure StateUpdater (State : Type) where
  chanId : Nat
deriving DecidableEq, Repr

/-- Modelled from the spec: `StateHandle::new(initial_state, operator)`
opens a fresh pipeline/pusher pair seeded with `initial_state`. -/
def StateHandle.new {State Operator : Type} (initial_state : State)
    (operator : Operator) (freshId : Nat) :
    StateHandle State Operator × StateUpdater State :=
  (⟨initial_state, operator, freshId⟩, ⟨freshId⟩)

/-- Service handle (handle.rs lines 19-29): message relay producer slot
(`None` while no runner has been built), the overwatch handle, the settings
cell, and the initial state computed at construction. The zero-sized
`PhantomData` marker is omitted. -/
structure ServiceHandle (Settings State Msg : Type) where
  outbound_relay : Option (OutboundRelay Msg)
  overwatch_handle : OverwatchHandle
  settings : SettingsUpdater Settings
  initial_state : State
deriving DecidableEq, Repr

/-- Service core resources handed to a starting service
(handle.rs lines 33-41). -/
structure ServiceStateHandle (Settings State Msg : Type) where
  inbound_relay : InboundRelay Msg
  overwatch_handle : OverwatchHandle
  settings_reader : SettingsNotifier Settings
  state_updater : StateUpdater State
  lifecycle_handler : Unit
deriving DecidableEq, Repr

/-- Main service executor (handle.rs lines 45-48). -/
structure ServiceRunner (Settings State Msg Operator : Type) where
  service_state : ServiceStateHandle Settings State Msg
  state_handle : StateHandle State Operator
deriving DecidableEq, Repr

/-- Static per-service data of the `ServiceCore`/`ServiceData` traits: the
service identifier, the relay buffer capacity, `State::from_settings`,
`StateOperator::from_settings`, and `ServiceCore::init` building the
service instance from its resources. -/
structure ServiceCore (Settings State Msg Operator Service : Type) where
  SERVICE_ID : ServiceId
  SERVICE_RELAY_BUFFER_SIZE : Nat
  state_from_settings : Settings → State
  operator_from_settings : Settings → Operator
  init : ServiceStateHandle Settings State Msg → Service

/-- `ServiceHandle::new` (handle.rs lines 51-63): computes the initial state
from the settings via `State::from_settings`, opens the settings cell seeded
with the settings, and leaves the relay producer slot empty. Returns the
handle together with the bumped allocation counter. -/
def ServiceHandle.new {Settings State Msg Operator Service : Type}
    (C : ServiceCore Settings State Msg Operator Service) (settings : Settings)
    (overwatch_handle : OverwatchHandle) (freshId : Nat) :
    ServiceHandle Settings State Msg × Nat :=
  let initial_state : State := C.state_from_settings settings
  let settingsCell := SettingsUpdater.new settings freshId
  ({ outbound_relay := none
     settings := settingsCell
     initial_state := initial_state
     overwatch_handle := overwatch_handle }, freshId + 1)

/-- `ServiceHandle::id` (handle.rs lines 65-67): the static identifier. -/
def ServiceHandle.id {Settings State Msg Operator Service : Type}
    (C : ServiceCore Settings State Msg Operator Service)
    (_h : ServiceHandle Settings State Msg) : ServiceId :=
  C.SERVICE_ID

/-- `ServiceHandle::relay_with` (handle.rs lines 82-84): clone of the
producer slot. -/
def ServiceHandle.relay_with {Settings State Msg : Type}
    (h : ServiceHandle Settings State Msg) : Option (OutboundRelay Msg) :=
  h.outbound_relay.map OutboundRelay.clone

/-- `ServiceHandle::update_settings` (handle.rs lines 87-89): publish to the
settings cell. -/
def ServiceHandle.update_settings {Settings State Msg : Type}
    (h : ServiceHandle Settings State Msg) (settings : Settings) :
    ServiceHandle Settings State Msg :=
  { h with settings := h.settings.update settings }

/-- Result of `ServiceHandle::service_runner`: the mutated handle (the
receiver is `&mut self`), the runner, and the bumped allocation counter. -/
structure BuildResult (Settings State Msg Operator : Type) where
  handle : ServiceHandle Settings State Msg
  runner : ServiceRunner Settings State Msg Operator
  nextId : Nat
deriving Repr

/-- `ServiceHandle::service_runner` (handle.rs lines 92-115): opens a fresh
relay channel sized by the descriptor, obtains a settings notifier, installs
the producer into the handle, reads the current settings snapshot, builds
the operator from it, opens a fresh state pipeline seeded with a clone of
the handle's initial state, and assembles bundle and runner. -/
def ServiceHandle.service_runner {Settings State Msg Operator Service : Type}
    (C : ServiceCore Settings State Msg Operator Service)
    (h : ServiceHandle Settings State Msg) (freshId : Nat) :
    BuildResult Settings State Msg Operator :=
  let chans := relay Msg C.SERVICE_RELAY_BUFFER_SIZE freshId
  let inbound_relay := chans.1
  let outbound_relay := chans.2
  let settings_reader := h.settings.notifier
  let h1 := { h with outbound_relay := some outbound_relay }
  let settings := (h1.settings.notifier).get_updated_settings h1.settings
  let operator := C.operator_from_settings settings
  let pipe := StateHandle.new h1.initial_state operator (freshId + 1)
  let state_handle := pipe.1
  let state_updater := pipe.2
  let service_state : ServiceStateHandle Settings State Msg :=
    { inbound_relay := inbound_relay
      overwatch_handle := h1.overwatch_handle.clone
      state_updater := state_updater
      settings_reader := settings_reader
      lifecycle_handler := () }
  { handle := h1
    runner := { service_state := service_state, state_handle := state_handle }
    nextId := freshId + 2 }

/-- `ServiceStateHandle::id` (handle.rs lines 118-122). -/
def ServiceStateHandle.id {Settings State Msg Operator Service : Type}
    (C : ServiceCore Settings State Msg Operator Service)
    (_s : ServiceStateHandle Settings State Msg) : ServiceId :=
  C.SERVICE_ID

/-- Cancellation handle returned by `abortable` and passed out of
`ServiceRunner::run`; `abortId` is the identity of the abort registration. -/
structure AbortHandle where
  abortId : Nat
deriving DecidableEq, Repr

/-- A task spawned on the runtime by `ServiceRunner::run`: either the
abortable service run loop (carrying the abort registration it is wrapped
in) or the state pipeline's run loop (wrapped in no abort registration). -/
inductive SpawnedTask (State Operator Service : Type) where
  | service (srv : Service) (abortId : Nat)
  | statePipeline (pipeline : StateHandle State Operator)
deriving DecidableEq, Repr

/-- The abort registration a spawned task is wrapped in, if any. -/
def SpawnedTask.abortIdOf {State Operator Service : Type} :
    SpawnedTask State Operator Service → Option Nat
  | .service _ a => some a
  | .statePipeline _ => none

/-- Result of `ServiceRunner::run`: the returned abort handle, the tasks
spawned (in spawn order), the runtime they were spawned on, and the bumped
allocation counter. -/
structure RunResult (State Operator Service : Type) where
  abort_handle : AbortHandle
  spawned : List (SpawnedTask State Operator Service)
  spawn_runtime : Nat
  nextId : Nat
deriving Repr

/-- `ServiceRunner::run` (handle.rs lines 128-145): clones the runtime from
the bundle, builds the service via `S::init(service_state)`, wraps the
service's run loop in an abort registration, spawns the abortable service
task and then the state pipeline's run loop as its own task, and returns
the abort handle of the service task. -/
def ServiceRunner.run {Settings State Msg Operator Service : Type}
    (C : ServiceCore Settings State Msg Operator Service)
    (r : ServiceRunner Settings State Msg Operator) (freshId : Nat) :
    RunResult State Operator Service :=
  let runtime := r.service_state.overwatch_handle.runtime
  let service := C.init r.service_state
  let abortable_handle : AbortHandle := ⟨freshId⟩
  { abort_handle := abortable_handle
    spawned := [SpawnedTask.service service freshId,
                SpawnedTask.statePipeline r.state_handle]
    spawn_runtime := runtime
    nextId := freshId + 1 }

/-- Global state of one handle's lifecycle: the handle, the allocation
counter, the tasks spawned so far (in spawn order) and the abort
registrations that have been cancelled. -/
structure World (Settings State Msg Operator Service : Type) where
  handle : ServiceHandle Settings State Msg
  nextId : Nat
  tasks : List (SpawnedTask State Operator Service)
  aborted : List Nat

/-- Operations a caller can perform on a handle: publish new settings, or
build a runner and start it (`service_runner` followed by `run`). -/
inductive HandleOp (Settings : Type) where
  | update (v : Settings)
  | buildStart

/-- One step of the lifecycle. `update` publishes through the handle;
`buildStart` builds a runner from the current handle state and starts it,
appending the spawned tasks. Neither cancels anything. -/
def World.step {Settings State Msg Operator Service : Type}
    (C : ServiceCore Settings State Msg Operator Service)
    (w : World Settings State Msg Operator Service) :
    HandleOp Settings → World Settings State Msg Operator Service
  | .update v => { w with handle := w.handle.update_settings v }
  | .buildStart =>
      let b := w.handle.service_runner C w.nextId
      let res := b.runner.run C b.nextId
      { handle := b.handle
        nextId := res.nextId
        tasks := w.tasks ++ res.spawned
        aborted := w.aborted }

/-- Run a sequence of lifecycle operations. -/
def World.execList {Settings State Msg Operator Service : Type}
    (C : ServiceCore Settings State Msg Operator Service)
    (w : World Settings State Msg Operator Service)
    (ops : List (HandleOp Settings)) : World Settings State Msg Operator Service :=
  ops.foldl (World.step C) w

/-- The initial world: a freshly constructed handle (allocation counter
starts at 0), no tasks, nothing cancelled. -/
def World.init {Settings State Msg Operator Service : Type}
    (C : ServiceCore Settings State Msg Operator Service) (s₀ : Settings)
    (oh : OverwatchHandle) : World Settings State Msg Operator Service :=
  let hn := ServiceHandle.new C s₀ oh 0
  { handle := hn.1, nextId := hn.2, tasks := [], aborted := [] }

/-- A concrete service used to evaluate the development on explicit inputs
(settings and operator are numbers, messages and the service instance are
trivial), mirroring the shape of the `SettingsService` test service. -/
def CNat : ServiceCore Nat Nat Unit Nat Unit where
  SERVICE_ID := "FooService"
  SERVICE_RELAY_BUFFER_SIZE := 16
  state_from_settings := fun s => s + 1
  operator_from_settings := fun s => s * 2
  init := fun _ => ()

/-- Cloning the producer slot is the identity on its contents. -/
theorem relay_with_eq_outbound {Settings State Msg : Type}
    (h : ServiceHandle Settings State Msg) :
    h.relay_with = h.outbound_relay := by
  cases hr : h.outbound_relay <;> simp [ServiceHandle.relay_with, OutboundRelay.clone, hr]

/-- Unfolding one lifecycle step of `execList`. -/
theorem execList_cons {Settings State Msg Operator Service : Type}
    (C : ServiceCore Settings State Msg Operator Service)
    (w : World Settings State Msg Operator Service) (op : HandleOp Settings)
    (ops : List (HandleOp Settings)) :
    World.execList C w (op :: ops) = World.execList C (World.step C w op) ops := rfl

/-- No lifecycle operation changes the handle's stored initial state. -/
theorem exec_initial_state {Settings State Msg Operator Service : Type}
    (C : ServiceCore Settings State Msg Operator Service)
    (ops : List (HandleOp Settings)) :
    ∀ w : World Settings State Msg Operator Service,
      (World.execList C w ops).handle.initial_state = w.handle.initial_state := by
  induction ops with
  | nil => intro w; rfl
  | cons op ops ih =>
      intro w
      rw [execList_cons, ih]
      cases op <;> rfl

/-- The producer slot is empty after a run of lifecycle operations exactly
when it was empty at the start and no runner was built along the way. -/
theorem exec_outbound_none_iff {Settings State Msg Operator Service : Type}
    (C : ServiceCore Settings State Msg Operator Service)
    (ops : List (HandleOp Settings)) :
    ∀ w : World Settings State Msg Operator Service,
      (World.execList C w ops).handle.outbound_relay = none ↔
        (w.handle.outbound_relay = none ∧ HandleOp.buildStart ∉ ops) := by
  induction ops with
  | nil => intro w; simp [World.execList]
  | cons op ops ih =>
      intro w
      rw [execList_cons, ih]
      cases op with
      | update v =>
          simp [World.step, ServiceHandle.update_settings, List.mem_cons]
      | buildStart =>
          simp [World.step, ServiceHandle.service_runner, List.mem_cons]

/-- Invariant: every producer installed in the handle was allocated below
the current allocation counter. -/
theorem exec_relayId_lt {Settings State Msg Operator Service : Type}
    (C : ServiceCore Settings State Msg Operator Service)
    (ops : List (HandleOp Settings)) :
    ∀ w : World Settings State Msg Operator Service,
      (∀ p, w.handle.outbound_relay = some p → p.relayId < w.nextId) →
      ∀ p, (World.execList C w ops).handle.outbound_relay = some p →
        p.relayId < (World.execList C w ops).nextId := by
  induction ops with
  | nil => intro w hw; exact hw
  | cons op ops ih =>
      intro w hw
      rw [execList_cons]
      apply ih
      cases op with
      | update v => intro p hp; exact hw p hp
      | buildStart =>
          intro p hp
          simp only [World.step, ServiceHandle.service_runner, relay,
            ServiceRunner.run, Option.some.injEq] at hp ⊢
          subst hp
          show w.nextId < w.nextId + 2 + 1
          omega

/-- C1: `relay_with()` returns None exactly when `service_runner()` has
never been called on the handle; once a runner has been built (and possibly
started) over any sequence of lifecycle operations it returns the current
producer (Some). The call is a pure read of the producer slot. -/
theorem c1_relay_with_none_iff_never_built {Settings State Msg Operator Service : Type}
    (C : ServiceCore Settings State Msg Operator Service) (s₀ : Settings)
    (oh : OverwatchHandle) (ops : List (HandleOp Settings)) :
    (World.execList C (World.init C s₀ oh) ops).handle.relay_with = none ↔
      HandleOp.buildStart ∉ ops := by
  rw [relay_with_eq_outbound, exec_outbound_none_iff]
  simp [World.init, ServiceHandle.new]

/-- Evaluation of C1 on concrete inputs: empty history and a history with a
build. -/
theorem c1_relay_with_none_iff_never_built_witness :
    ((World.execList CNat (World.init CNat 0 ⟨0⟩) []).handle.relay_with = none ↔
      HandleOp.buildStart ∉ ([] : List (HandleOp Nat))) ∧
    ((World.execList CNat (World.init CNat 0 ⟨0⟩) [HandleOp.buildStart]).handle.relay_with = none ↔
      HandleOp.buildStart ∉ [(HandleOp.buildStart : HandleOp Nat)]) :=
  ⟨c1_relay_with_none_iff_never_built CNat 0 ⟨0⟩ [],
   c1_relay_with_none_iff_never_built CNat 0 ⟨0⟩ [HandleOp.buildStart]⟩

/-- C7: `Handle::new(initial_settings, scheduling_context)` computes the
initial state via `State::from_settings`, seeds the settings cell with the
initial settings, and leaves the relay producer slot empty. -/
theorem c7_new_seeds_handle {Settings State Msg Operator Service : Type}
    (C : ServiceCore Settings State Msg Operator Service) (s : Settings)
    (oh : OverwatchHandle) (n : Nat) :
    (ServiceHandle.new C s oh n).1.initial_state = C.state_from_settings s ∧
    (ServiceHandle.new C s oh n).1.settings.current = s ∧
    (ServiceHandle.new C s oh n).1.outbound_relay = none ∧
    (ServiceHandle.new C s oh n).1.overwatch_handle = oh := by
  refine ⟨rfl, rfl, rfl, rfl⟩

/-- Evaluation of C7 on a concrete input. -/
theorem c7_new_seeds_handle_witness :
    (ServiceHandle.new CNat 5 ⟨0⟩ 0).1.initial_state = CNat.state_from_settings 5 ∧
    (ServiceHandle.new CNat 5 ⟨0⟩ 0).1.settings.current = 5 ∧
    (ServiceHandle.new CNat 5 ⟨0⟩ 0).1.outbound_relay = none ∧
    (ServiceHandle.new CNat 5 ⟨0⟩ 0).1.overwatch_handle = ⟨0⟩ :=
  c7_new_seeds_handle CNat 5 ⟨0⟩ 0

/-- C2 fails on the code: a component is created during a build exactly
when its allocation id is at least the allocation counter at the build's
entry, and for a handle built at counter 0 (so the settings cell has id 0
and the counter at the build's entry is 1) the settings broadcast visible
after the build — both the cell kept by the handle and the cell the
bundle's reader is bound to — is the cell with id 0, allocated by
`ServiceHandle::new`, not one created by the build. `service_runner`
contains no call that opens a settings broadcast. -/
theorem c2_counterexample :
    ((ServiceHandle.new CNat 7 ⟨0⟩ 0).1.service_runner CNat
        (ServiceHandle.new CNat 7 ⟨0⟩ 0).2).runner.service_state.settings_reader.cellId = 0 ∧
    ((ServiceHandle.new CNat 7 ⟨0⟩ 0).1.service_runner CNat
        (ServiceHandle.new CNat 7 ⟨0⟩ 0).2).handle.settings.cellId = 0 ∧
    (ServiceHandle.new CNat 7 ⟨0⟩ 0).2 = 1 ∧
    ¬ ((ServiceHandle.new CNat 7 ⟨0⟩ 0).2 ≤
        ((ServiceHandle.new CNat 7 ⟨0⟩ 0).1.service_runner CNat
          (ServiceHandle.new CNat 7 ⟨0⟩ 0).2).runner.service_state.settings_reader.cellId) := by
  refine ⟨rfl, rfl, rfl, by decide⟩

/-- C2 amended: on every call to `service_runner`, the Relay Channel is
created fresh for that build (allocated at the entry counter), with the
producer installed into the Handle and the consumer installed into the
Bundle; the Settings Broadcast is not created by the build — the Handle
keeps the cell opened at construction, and the build installs into the
Bundle a fresh reader (notifier) of that existing cell. -/
theorem c2_fresh_relay_reused_broadcast {Settings State Msg Operator Service : Type}
    (C : ServiceCore Settings State Msg Operator Service)
    (h : ServiceHandle Settings State Msg) (n : Nat) :
    (h.service_runner C n).runner.service_state.inbound_relay
        = InboundRelay.mk n C.SERVICE_RELAY_BUFFER_SIZE ∧
    (h.service_runner C n).handle.outbound_relay
        = some (OutboundRelay.mk n C.SERVICE_RELAY_BUFFER_SIZE) ∧
    n < (h.service_runner C n).nextId ∧
    (h.service_runner C n).runner.service_state.settings_reader = h.settings.notifier ∧
    (h.service_runner C n).runner.service_state.settings_reader.cellId = h.settings.cellId ∧
    (h.service_runner C n).handle.settings = h.settings := by
  refine ⟨rfl, rfl, ?_, rfl, rfl, rfl⟩
  show n < n + 2
  omega

/-- C3: over any sequence of lifecycle operations the handle's stored
initial state stays the one computed at construction, and every build
seeds its state pipeline from exactly that original initial state. -/
theorem c3_pipeline_seeded_from_original {Settings State Msg Operator Service : Type}
    (C : ServiceCore Settings State Msg Operator Service) (s₀ : Settings)
    (oh : OverwatchHandle) (ops : List (HandleOp Settings)) (m : Nat) :
    (World.execList C (World.init C s₀ oh) ops).handle.initial_state
        = C.state_from_settings s₀ ∧
    ((World.execList C (World.init C s₀ oh) ops).handle.service_runner C
        m).runner.state_handle.initial = C.state_from_settings s₀ := by
  have h1 : (World.execList C (World.init C s₀ oh) ops).handle.initial_state
      = C.state_from_settings s₀ := by
    rw [exec_initial_state]; rfl
  exact ⟨h1, h1⟩

/-- C4: the runner's state operator is built by `StateOperator::from_settings`
from the settings snapshot read through a notifier at the moment
`service_runner` is called (which is the cell's current value), and a later
settings update refreshes nothing that is already spawned: an `update`
lifecycle step leaves every spawned task — hence every pipeline's operator —
unchanged. -/
theorem c4_operator_built_once_from_snapshot {Settings State Msg Operator Service : Type}
    (C : ServiceCore Settings State Msg Operator Service)
    (h : ServiceHandle Settings State Msg) (n : Nat) (v : Settings)
    (w : World Settings State Msg Operator Service) :
    (h.service_runner C n).runner.state_handle.operator
        = C.operator_from_settings
            ((h.settings.notifier).get_updated_settings h.settings) ∧
    (h.service_runner C n).runner.state_handle.operator
        = C.operator_from_settings h.settings.current ∧
    (World.step C w (HandleOp.update v)).tasks = w.tasks :=
  ⟨rfl, rfl, rfl⟩

/-- C5: before any build the producer slot is empty; a build installs into
the slot the producer allocated at the current counter (so it is distinct
from any previously installed producer, of which the slot holds at most
one), leaves the settings cell, the initial state and the scheduling
context untouched, extends the spawned tasks without touching the earlier
ones and cancels nothing. -/
theorem c5_build_replaces_producer_only {Settings State Msg Operator Service : Type}
    (C : ServiceCore Settings State Msg Operator Service) (s₀ : Settings)
    (oh : OverwatchHandle) (ops : List (HandleOp Settings)) :
    (HandleOp.buildStart ∉ ops →
      (World.execList C (World.init C s₀ oh) ops).handle.outbound_relay = none) ∧
    (World.step C (World.execList C (World.init C s₀ oh) ops)
        HandleOp.buildStart).handle.outbound_relay
      = some (OutboundRelay.mk (World.execList C (World.init C s₀ oh) ops).nextId
          C.SERVICE_RELAY_BUFFER_SIZE) ∧
    (∀ p, (World.execList C (World.init C s₀ oh) ops).handle.outbound_relay = some p →
      p.relayId ≠ (World.execList C (World.init C s₀ oh) ops).nextId) ∧
    (World.step C (World.execList C (World.init C s₀ oh) ops)
        HandleOp.buildStart).handle.settings
      = (World.execList C (World.init C s₀ oh) ops).handle.settings ∧
    (World.step C (World.execList C (World.init C s₀ oh) ops)
        HandleOp.buildStart).handle.initial_state
      = (World.execList C (World.init C s₀ oh) ops).handle.initial_state ∧
    (World.step C (World.execList C (World.init C s₀ oh) ops)
        HandleOp.buildStart).handle.overwatch_handle
      = (World.execList C (World.init C s₀ oh) ops).handle.overwatch_handle ∧
    (∃ ts, (World.step C (World.execList C (World.init C s₀ oh) ops)
        HandleOp.buildStart).tasks
      = (World.execList C (World.init C s₀ oh) ops).tasks ++ ts) ∧
    (World.step C (World.execList C (World.init C s₀ oh) ops)
        HandleOp.buildStart).aborted
      = (World.execList C (World.init C s₀ oh) ops).aborted := by
  refine ⟨?_, rfl, ?_, rfl, rfl, rfl, ⟨_, rfl⟩, rfl⟩
  · intro hnb
    exact (exec_outbound_none_iff C ops (World.init C s₀ oh)).mpr ⟨rfl, hnb⟩
  · intro p hp
    have := exec_relayId_lt C ops (World.init C s₀ oh)
      (by intro q hq; simp [World.init, ServiceHandle.new] at hq) p hp
    omega

/-- Evaluation of C5 on a concrete input: the empty history, in which no
runner has been built, so the producer slot is empty and the build installs
the producer allocated at counter 1. -/
theorem c5_build_replaces_producer_only_witness :
    (World.init CNat (0 : Nat) ⟨0⟩).handle.outbound_relay = none ∧
    (World.step CNat (World.init CNat (0 : Nat) ⟨0⟩)
        HandleOp.buildStart).handle.outbound_relay = some (OutboundRelay.mk 1 16) := by
  have h := c5_build_replaces_producer_only CNat 0 ⟨0⟩ []
  exact ⟨h.1 (by simp), h.2.1⟩

/-- C6: `ServiceRunner::run` builds the service instance from the bundle via
`init`, spawns exactly the abortable service task followed by the state
pipeline task on the bundle's runtime, and the returned abort handle is the
registration wrapped around the service task only — the pipeline task
carries no abort registration. -/
theorem c6_run_aborts_only_service_task {Settings State Msg Operator Service : Type}
    (C : ServiceCore Settings State Msg Operator Service)
    (r : ServiceRunner Settings State Msg Operator) (n : Nat) :
    (r.run C n).spawned
        = [SpawnedTask.service (C.init r.service_state) (r.run C n).abort_handle.abortId,
           SpawnedTask.statePipeline r.state_handle] ∧
    (r.run C n).spawn_runtime = r.service_state.overwatch_handle.runtime ∧
    SpawnedTask.abortIdOf
        ((SpawnedTask.service (C.init r.service_state) (r.run C n).abort_handle.abortId :
          SpawnedTask State Operator Service))
      = some (r.run C n).abort_handle.abortId ∧
    SpawnedTask.abortIdOf
        ((SpawnedTask.statePipeline r.state_handle : SpawnedTask State Operator Service))
      = none :=
  ⟨rfl, rfl, rfl, rfl⟩

/-- C8: after `update_settings(v)` every reader bound to the handle's
settings cell — whether subscribed before or after the update — reads `v`,
and the update keeps the cell's identity, so existing readers stay bound to
it. -/
theorem c8_update_visible_to_all_readers {Settings State Msg : Type}
    (h : ServiceHandle Settings State Msg) (v : Settings)
    (r : SettingsNotifier Settings) (hr : r.cellId = h.settings.cellId) :
    r.get_updated_settings (h.update_settings v).settings = v ∧
    (h.settings.notifier).get_updated_settings (h.update_settings v).settings = v ∧
    ((h.update_settings v).settings.notifier).get_updated_settings
        (h.update_settings v).settings = v ∧
    (h.update_settings v).settings.cellId = h.settings.cellId ∧
    r.cellId = (h.update_settings v).settings.cellId :=
  ⟨rfl, rfl, rfl, rfl, hr⟩

/-- Evaluation of C8 on a concrete input: a reader subscribed at
construction time reads the updated value 9. -/
theorem c8_update_visible_to_all_readers_witness :
    SettingsNotifier.get_updated_settings (⟨0⟩ : SettingsNotifier Nat)
        (((ServiceHandle.new CNat 5 ⟨0⟩ 0).1.update_settings 9).settings) = 9 ∧
    (((ServiceHandle.new CNat 5 ⟨0⟩ 0).1.update_settings 9).settings).cellId
      = (ServiceHandle.new CNat 5 ⟨0⟩ 0).1.settings.cellId := by
  have h := c8_update_visible_to_all_readers
    (ServiceHandle.new CNat 5 ⟨0⟩ 0).1 9 ⟨0⟩ (by decide)
  exact ⟨h.1, h.2.2.2.1⟩

/-- C9: in every reachable handle state `id()` returns the static service
identifier, and the bundle produced by any build returns the same one. -/
theorem c9_ids_are_static {Settings State Msg Operator Service : Type}
    (C : ServiceCore Settings State Msg Operator Service) (s₀ : Settings)
    (oh : OverwatchHandle) (ops : List (HandleOp Settings)) (m : Nat) :
    ServiceHandle.id C (World.execList C (World.init C s₀ oh) ops).handle
        = C.SERVICE_ID ∧
    ServiceStateHandle.id C
        ((World.execList C (World.init C s₀ oh) ops).handle.service_runner C
          m).runner.service_state = C.SERVICE_ID :=
  ⟨rfl, rfl⟩

/-- C10: `update_settings` changes only the value held by the settings cell
— the producer slot, the stored initial state, the scheduling-context
handle and the cell's identity are unchanged — and `relay_with` is a pure
clone of the producer slot, so its result is unchanged by a settings
update. -/
theorem c10_update_and_relay_frame {Settings State Msg : Type}
    (h : ServiceHandle Settings State Msg) (v : Settings) :
    (h.update_settings v).outbound_relay = h.outbound_relay ∧
    (h.update_settings v).initial_state = h.initial_state ∧
    (h.update_settings v).overwatch_handle = h.overwatch_handle ∧
    (h.update_settings v).settings.cellId = h.settings.cellId ∧
    (h.update_settings v).settings.current = v ∧
    (h.update_settings v).relay_with = h.relay_with ∧
    h.relay_with = h.outbound_relay.map OutboundRelay.clone :=
  ⟨rfl, rfl, rfl, rfl, rfl,
   by rw [relay_with_eq_outbound, relay_with_eq_outbound]; rfl, rfl⟩

end Overwatch
